import Mathlib

/-!
Shallow embedding of the Vulkan bootstrap code in `src/src/main.rs`
(repository tamiso132/Vulcan), together with the pieces of the `vulky`
crate that the main file calls but whose sources are not in the
repository snapshot (those are modelled from the specification and
marked as such in their doc comments).

Conventions of the embedding:
- Vulkan flag words are `Nat` with the bit values used by the `ash`
  bindings; opaque Vulkan handles are `Nat` (0 is the null handle).
- Each call into the Vulkan driver or loader is a parameter of type
  `Except String α` (the result the driver would return), so that the
  control flow of the Rust code around those calls is what remains.
- A Rust function returning `anyhow::Result` becomes a function into
  `Outcome α`, which distinguishes a returned error (propagated by the
  Rust question-mark operator) from a process abort at the call site
  (a Rust panic or expect).
-/

namespace Vulcan

/-- Bit values of vk::DebugUtilsMessageSeverityFlagsEXT as defined by the
Vulkan headers and re-exported by ash. -/
def SEVERITY_VERBOSE : Nat := 1

/-- Info severity bit (0x10). -/
def SEVERITY_INFO : Nat := 16

/-- Warning severity bit (0x100). -/
def SEVERITY_WARNING : Nat := 256

/-- Error severity bit (0x1000). -/
def SEVERITY_ERROR : Nat := 4096

/-- Bit values of vk::DebugUtilsMessageTypeFlagsEXT. -/
def TYPE_GENERAL : Nat := 1

/-- Validation message category bit (0x2). -/
def TYPE_VALIDATION : Nat := 2

/-- Performance message category bit (0x4). -/
def TYPE_PERFORMANCE : Nat := 4

/-- vk::FALSE, the Bool32 value meaning: do not abort the triggering call. -/
def VK_FALSE : Nat := 0

/-- vk::QueueFlags::GRAPHICS bit. -/
def QUEUE_GRAPHICS_BIT : Nat := 1

/-- vk::make_api_version from the ash bindings:
(variant << 29) | (major << 22) | (minor << 12) | patch. -/
def vk_make_api_version (variant major minor patch : Nat) : Nat :=
  (variant <<< 29) ||| (major <<< 22) ||| (minor <<< 12) ||| patch

/-- main.rs line 29: the Vulkan SDK version that started requiring the
portability subset extension for macOS. -/
def PORTABILITY_MACOS_VERSION : Nat := vk_make_api_version 0 1 3 216

/-- Modelled from the spec: the `vulky::constant::validation` module is not
under src/. `LAYER_NAME` is its fixed requested validation layer name
(the spec only says: a fixed layer name string; the exact value is
immaterial to every claim). -/
def LAYER_NAME : String := "VK_LAYER_KHRONOS_validation"

/-- Extension name returned by ash KhrGetPhysicalDeviceProperties2Fn::name(). -/
def KHR_GET_PHYSICAL_DEVICE_PROPERTIES2 : String :=
  "VK_KHR_get_physical_device_properties2"

/-- Extension name returned by ash KhrPortabilityEnumerationFn::name(). -/
def KHR_PORTABILITY_ENUMERATION : String := "VK_KHR_portability_enumeration"

/-- Result of a Rust function in this module: `ok` is the Ok value of its
`anyhow::Result`, `err` is the Err value (propagated upward by the
question-mark operator), and `panicked` is a process abort raised at the
call site (Rust panic or expect), which never reaches the caller. -/
inductive Outcome (α : Type) where
  | ok : α → Outcome α
  | err : String → Outcome α
  | panicked : String → Outcome α
  deriving Repr, DecidableEq

/-- Sequencing of Rust statements: an error or a panic short-circuits. -/
def Outcome.bind {α β : Type} : Outcome α → (α → Outcome β) → Outcome β
  | .ok a, f => f a
  | .err e, _ => .err e
  | .panicked m, _ => .panicked m

/-- The Rust question-mark operator applied to a driver call result. -/
def ofResult {α : Type} : Except String α → Outcome α
  | .ok a => .ok a
  | .error e => .err e

/-- main.rs lines 244-250: the severity arm of debug_callback, an exact
match on the flag word, falling through to "[Unknown]". -/
def debug_callback_severity (message_severity : Nat) : String :=
  if message_severity = SEVERITY_VERBOSE then "[Verbose]"
  else if message_severity = SEVERITY_WARNING then "[Warning]"
  else if message_severity = SEVERITY_ERROR then "[Error]"
  else if message_severity = SEVERITY_INFO then "[Info]"
  else "[Unknown]"

/-- main.rs lines 251-256: the message-type arm of debug_callback. -/
def debug_callback_type (message_type : Nat) : String :=
  if message_type = TYPE_GENERAL then "[General]"
  else if message_type = TYPE_PERFORMANCE then "[Performance]"
  else if message_type = TYPE_VALIDATION then "[Validation]"
  else "[Unknown]"

/-- main.rs lines 238-261: debug_callback. Returns the formatted line
written to the diagnostic sink and the Bool32 value returned to the
driver. -/
def debug_callback (message_severity message_type : Nat) (p_message : String) :
    String × Nat :=
  let severity := debug_callback_severity message_severity
  let types := debug_callback_type message_type
  ("[Debug]" ++ severity ++ types ++ p_message, VK_FALSE)

/-- The fields of vk::DebugUtilsMessengerCreateInfoEXT that carry
information (s_type, p_next, flags are constants in the source;
pfn_user_callback is modelled as the Bool: a callback is registered). -/
structure DebugUtilsMessengerCreateInfoEXT where
  message_severity : Nat
  message_type : Nat
  pfn_user_callback : Bool
  deriving Repr, DecidableEq

/-- main.rs lines 263-278: debug_create_info (the Result wrapper in the
source is always Ok and is dropped here). -/
def debug_create_info : DebugUtilsMessengerCreateInfoEXT :=
  { message_severity := SEVERITY_WARNING ||| SEVERITY_ERROR ||| SEVERITY_VERBOSE
  , message_type := TYPE_GENERAL ||| TYPE_PERFORMANCE ||| TYPE_VALIDATION
  , pfn_user_callback := true }

/-- DebugUtilsMessengerEXT::null(). -/
def NULL_MESSENGER : Nat := 0

/-- main.rs lines 218-236: setup_debug_utils. The loader construction is
infallible and carries no data, so only the messenger handle is kept.
When validation is disabled the function returns the null handle without
touching the driver; when enabled it calls create_debug_utils_messenger
(its result is the parameter) and aborts at the call site via expect
("Debug Utils Callback") on failure. -/
def setup_debug_utils (validation_enabled : Bool)
    (create_messenger_result : Except String Nat) : Outcome Nat :=
  if !validation_enabled then
    .ok NULL_MESSENGER
  else
    match create_messenger_result with
    | .ok h => .ok h
    | .error _ => .panicked "Debug Utils Callback"

/-- main.rs lines 197-216: check_validation_support. The loop over the
enumerated layer properties with an early break on the first name equal
to the requested layer name; returns whether the layer was found. (The
enumeration call and the UTF-8 conversion are infallible in the model;
the eprintln on the not-found path carries no data.) -/
def check_validation_support : List String → Bool
  | [] => false
  | s :: rest => if s = LAYER_NAME then true else check_validation_support rest

/-- The fields of vk::InstanceCreateInfo that vary in main.rs lines
161-180: whether ENUMERATE_PORTABILITY_KHR is set, the extension list,
the layer list, and whether a debug-messenger create-info is chained on
p_next. -/
structure InstanceCreateInfo where
  portability_flag : Bool
  enabled_extension_names : List String
  enabled_layer_names : List String
  debug_chain : Bool
  deriving Repr, DecidableEq

/-- main.rs lines 152-159, extension part: the extension list starts as
the platform list (vulky::platform::required_extension_names, not under
src/, a parameter here) and two portability extensions are pushed under
the macOS portability condition, where the code tests
PORTABILITY_MACOS_VERSION >= version::API_VERSION. -/
def instance_extensions (target_macos : Bool) (api_version : Nat)
    (platform_extensions : List String) : List String :=
  if target_macos = true ∧ PORTABILITY_MACOS_VERSION ≥ api_version then
    platform_extensions ++
      [KHR_GET_PHYSICAL_DEVICE_PROPERTIES2, KHR_PORTABILITY_ENUMERATION]
  else
    platform_extensions

/-- main.rs lines 152-159, flags part: ENUMERATE_PORTABILITY_KHR is set
under the same condition, otherwise the creation flags are empty. -/
def instance_flags_portability (target_macos : Bool) (api_version : Nat) :
    Bool :=
  if target_macos = true ∧ PORTABILITY_MACOS_VERSION ≥ api_version then true
  else false

/-- main.rs lines 126-184: create_instance. Parameters supply the inputs
the Rust code reads from its environment: the compile-time validation
flag, the enumerated supported layers (read by check_validation_support),
the target platform (cfg!(target_os = "macos")), the configured
version::API_VERSION (from the vulky crate, not under src/), the platform
extension list from vulky::platform::required_extension_names, and the
result of the driver call entry.create_instance. On success the model
returns the instance handle together with the InstanceCreateInfo that was
passed to the driver. -/
def create_instance (validation_enabled : Bool) (supported_layers : List String)
    (target_macos : Bool) (api_version : Nat) (platform_extensions : List String)
    (driver_create_instance : Except String Nat) :
    Outcome (Nat × InstanceCreateInfo) :=
  if validation_enabled && !check_validation_support supported_layers then
    .panicked "Validation layer is requested, but no available"
  else
    let info : InstanceCreateInfo :=
      { portability_flag :=
          instance_flags_portability target_macos api_version
      , enabled_extension_names :=
          instance_extensions target_macos api_version platform_extensions
      , enabled_layer_names := if validation_enabled then [LAYER_NAME] else []
      , debug_chain := validation_enabled }
    match driver_create_instance with
    | .ok h => .ok (h, info)
    | .error e => .err e

/-- A queue family as seen by device selection: its capability flag word. -/
structure QueueFamilyProperties where
  queue_flags : Nat
  deriving Repr, DecidableEq

/-- A physical device as seen by device selection: its enumerated queue
families, in enumeration order. -/
structure PhysicalDevice where
  queue_families : List QueueFamilyProperties
  deriving Repr, DecidableEq

/-- A queue family qualifies when its capability flags include graphics
submission. -/
def has_graphics (q : QueueFamilyProperties) : Bool :=
  (q.queue_flags &&& QUEUE_GRAPHICS_BIT) != 0

/-- Modelled from the spec: the family scan inside
`vulky::device::pick_phyiscal_device` (the vulky crate is not under src/).
Finds the first family index, counting from i, whose capability flags
include graphics submission. -/
def find_graphics_family_from (i : Nat) :
    List QueueFamilyProperties → Option Nat
  | [] => none
  | q :: rest =>
    if has_graphics q then some i else find_graphics_family_from (i + 1) rest

/-- First graphics-capable family index of a family list, if any. -/
def find_graphics_family (qs : List QueueFamilyProperties) : Option Nat :=
  find_graphics_family_from 0 qs

/-- The fatal device-selection error of the spec (section 7,
DeviceSelectionError). -/
def DEVICE_SELECTION_ERROR : String :=
  "DeviceSelectionError: no physical device has a graphics queue family"

/-- Modelled from the spec: the device scan inside
`vulky::device::pick_phyiscal_device`, counting devices from i. First-fit:
the scan stops at the first device having a graphics-capable family. -/
def pick_phyiscal_device_from (i : Nat) :
    List PhysicalDevice → Except String (Nat × Nat)
  | [] => .error DEVICE_SELECTION_ERROR
  | d :: rest =>
    match find_graphics_family d.queue_families with
    | some f => .ok (i, f)
    | none => pick_phyiscal_device_from (i + 1) rest

/-- Modelled from the spec: `vulky::device::pick_phyiscal_device` is not
under src/. Enumerate all physical devices in order; return the first
device possessing a graphics-capable queue family together with that
family index, or fail with DeviceSelectionError when no device qualifies.
Devices are identified by their enumeration index. -/
def pick_phyiscal_device (devices : List PhysicalDevice) :
    Except String (Nat × Nat) :=
  pick_phyiscal_device_from 0 devices

/-- The device-queue descriptor the spec says logical-device creation
builds: exactly one queue from the chosen family. -/
structure DeviceQueueCreateInfo where
  queue_family_index : Nat
  queue_count : Nat
  deriving Repr, DecidableEq

/-- Modelled from the spec: `vulky::device::create_logical_device` is not
under src/. Builds a descriptor requesting exactly one queue from the
chosen family and asks the driver (parameter) to create the device;
driver failure is returned as a Result error. -/
def create_logical_device (graphic_family : Nat)
    (driver_create_device : Except String Nat) :
    Except String (Nat × DeviceQueueCreateInfo) :=
  match driver_create_device with
  | .ok h => .ok (h, { queue_family_index := graphic_family, queue_count := 1 })
  | .error e => .error e

/-- device.get_device_queue(family, 0): a weak reference into the device,
modelled as the (device, family, queue index) triple. -/
def get_device_queue (device family queue_index : Nat) : Nat × Nat × Nat :=
  (device, family, queue_index)

/-- main.rs lines 186-195: create_surface. Delegates to
platform::create_surface (the vulky crate, not under src/; its result is
the parameter) and constructs the infallible surface loader, which
carries no data in the model. -/
def create_surface (platform_create_surface : Except String Nat) :
    Except String Nat :=
  match platform_create_surface with
  | .ok s => .ok s
  | .error e => .error e

/-- The fields of the VulkanApp struct (main.rs lines 80-92) that carry
data in the model. The entry and the two loaders are infallible and
carry no data; `instance` is a reserved word in Lean, hence
instance_handle. -/
structure VulkanApp where
  instance_handle : Nat
  debug_messenger : Nat
  physical_device : Nat
  graphic_family : Nat
  device : Nat
  graphics_queue : Nat × Nat × Nat
  surface : Nat
  deriving Repr, DecidableEq

/-- main.rs lines 94-113: VulkanApp::new. The bootstrap pipeline: each
fallible step is sequenced with the question-mark operator (Outcome.bind
after ofResult), in source order: entry load, create_instance,
setup_debug_utils, pick_phyiscal_device, create_logical_device,
get_device_queue, create_surface. -/
def VulkanApp.new (entry_load : Except String Unit)
    (validation_enabled : Bool) (supported_layers : List String)
    (target_macos : Bool) (api_version : Nat)
    (platform_extensions : List String)
    (driver_create_instance driver_create_messenger : Except String Nat)
    (devices : List PhysicalDevice)
    (driver_create_device platform_create_surface : Except String Nat) :
    Outcome VulkanApp :=
  (ofResult entry_load).bind fun _ =>
  (create_instance validation_enabled supported_layers target_macos
      api_version platform_extensions driver_create_instance).bind fun inst =>
  (setup_debug_utils validation_enabled driver_create_messenger).bind
      fun messenger =>
  (ofResult (pick_phyiscal_device devices)).bind fun pick =>
  (ofResult (create_logical_device pick.2 driver_create_device)).bind fun dev =>
  let graphics_queue := get_device_queue dev.1 pick.2 0
  (ofResult (create_surface platform_create_surface)).bind fun surface =>
  .ok { instance_handle := inst.1
      , debug_messenger := messenger
      , physical_device := pick.1
      , graphic_family := pick.2
      , device := dev.1
      , graphics_queue := graphics_queue
      , surface := surface }

/-- The teardown actions VulkanApp::destroy can take, as observable
events. The event vocabulary includes surface destruction
(vkDestroySurfaceKHR) so that its absence from the emitted trace can be
stated. -/
inductive DestroyEvent where
  | destroy_debug_utils_messenger
  | destroy_device
  | destroy_instance
  | destroy_surface
  deriving Repr, DecidableEq

/-- main.rs lines 116-123: VulkanApp::destroy, as the ordered trace of
destruction calls it performs: the messenger destroy only under the
validation flag, then destroy_device, then destroy_instance. No other
destruction call appears in the source. -/
def destroy (validation_enabled : Bool) : List DestroyEvent :=
  (if validation_enabled then [DestroyEvent.destroy_debug_utils_messenger]
   else [])
  ++ [DestroyEvent.destroy_device, DestroyEvent.destroy_instance]

/-- Simulated enumeration for the first-fit test of the spec (section 8,
property 3): device 0 has one non-graphics family, device 1 has none,
device 2 has a non-graphics family at index 0 and a graphics family at
index 1. -/
def sample_devices : List PhysicalDevice :=
  [⟨[⟨0⟩]⟩, ⟨[]⟩, ⟨[⟨4⟩, ⟨1⟩]⟩]

/-- Simulated enumeration with no graphics-capable family anywhere. -/
def sample_devices_no_graphics : List PhysicalDevice :=
  [⟨[⟨4⟩]⟩, ⟨[⟨8⟩, ⟨2⟩]⟩]

/-- The instance-creation descriptor built in the concrete portability
scenario used by the witness of the portability rule: macOS, the api
version equal to zero, one platform extension, validation disabled. -/
def sample_portability_info : InstanceCreateInfo :=
  { portability_flag := true
  , enabled_extension_names :=
      ["VK_KHR_surface", KHR_GET_PHYSICAL_DEVICE_PROPERTIES2,
        KHR_PORTABILITY_ENUMERATION]
  , enabled_layer_names := []
  , debug_chain := false }

/-- check_validation_support finds the layer exactly when the requested
layer name occurs in the enumerated list. -/
theorem check_validation_support_iff (layers : List String) :
    check_validation_support layers = true ↔ LAYER_NAME ∈ layers := by
  induction layers with
  | nil => simp [check_validation_support]
  | cons s rest ih =>
    by_cases h : s = LAYER_NAME
    · simp [check_validation_support, h]
    · simp [check_validation_support, h, ih]
      intro heq
      exact absurd heq.symm h

/-- C1: teardown of a fully constructed context invokes messenger
destruction exactly when validation was enabled (the messenger was
created), and when invoked it occurs strictly before logical-device
destruction; device destruction occurs strictly before instance
destruction, for every value of the validation flag. -/
theorem C1_teardown_order :
    ∀ validation_enabled : Bool,
      (DestroyEvent.destroy_debug_utils_messenger ∈ destroy validation_enabled
        ↔ validation_enabled = true) ∧
      DestroyEvent.destroy_device ∈ destroy validation_enabled ∧
      DestroyEvent.destroy_instance ∈ destroy validation_enabled ∧
      (destroy true).indexOf DestroyEvent.destroy_debug_utils_messenger
        < (destroy true).indexOf DestroyEvent.destroy_device ∧
      (destroy validation_enabled).indexOf DestroyEvent.destroy_device
        < (destroy validation_enabled).indexOf DestroyEvent.destroy_instance := by
  intro e
  cases e <;> decide

/-- C2: the destruction trace of VulkanApp::destroy never contains a
surface destruction, for either value of the validation flag — the code
omits surface teardown entirely, so no surface destruction can precede
instance destruction. -/
theorem C2_no_surface_destroy :
    ∀ validation_enabled : Bool,
      DestroyEvent.destroy_surface ∉ destroy validation_enabled := by
  intro e
  cases e <;> decide

/-- C3: the messenger is registered exactly when validation is enabled.
With validation disabled, setup_debug_utils returns the null handle
without consulting the driver (the result is the same for every driver
outcome), and the teardown trace contains no messenger destruction; with
validation enabled and a successful driver call, the created handle is
returned, and teardown destroys the messenger. -/
theorem C3_validation_gating :
    (∀ r : Except String Nat,
        setup_debug_utils false r = Outcome.ok NULL_MESSENGER) ∧
    (∀ h : Nat, setup_debug_utils true (Except.ok h) = Outcome.ok h) ∧
    (∀ validation_enabled : Bool,
        DestroyEvent.destroy_debug_utils_messenger ∈ destroy validation_enabled
          ↔ validation_enabled = true) := by
  refine ⟨fun r => rfl, fun h => rfl, fun e => ?_⟩
  cases e <;> decide

/-- C7: for every severity, category and message, debug_callback returns
vk::FALSE (do not abort the triggering call) and never an error value. -/
theorem C7_callback_returns_false :
    ∀ (message_severity message_type : Nat) (p_message : String),
      (debug_callback message_severity message_type p_message).2 = VK_FALSE :=
  fun _ _ _ => rfl

/-- C10: the diagnostic callback is total over its flag inputs: every
severity word (including info and any combined or unrecognized value)
maps to one of the five severity labels, every category word maps to one
of the four category labels, the output line is always the bracketed
concatenation, and the info severity in particular maps to "[Info]". -/
theorem C10_callback_total :
    ∀ (message_severity message_type : Nat) (p_message : String),
      debug_callback_severity message_severity ∈
        ["[Verbose]", "[Warning]", "[Error]", "[Info]", "[Unknown]"] ∧
      debug_callback_type message_type ∈
        ["[General]", "[Performance]", "[Validation]", "[Unknown]"] ∧
      (debug_callback message_severity message_type p_message).1
        = "[Debug]" ++ debug_callback_severity message_severity
            ++ debug_callback_type message_type ++ p_message ∧
      debug_callback_severity SEVERITY_INFO = "[Info]" := by
  intro s t m
  refine ⟨?_, ?_, rfl, by decide⟩
  · unfold debug_callback_severity
    split_ifs <;> simp
  · unfold debug_callback_type
    split_ifs <;> simp

/-- The family scan starting at i returns i + k where k is the position of
the first graphics-capable family, all earlier families being
non-graphics. -/
theorem find_graphics_family_from_some (qs : List QueueFamilyProperties) :
    ∀ i f, find_graphics_family_from i qs = some f →
      ∃ k, f = i + k ∧ k < qs.length ∧
        has_graphics (qs.getD k ⟨0⟩) = true ∧
        ∀ g, g < k → has_graphics (qs.getD g ⟨0⟩) = false := by
  induction qs with
  | nil => intro i f h; simp [find_graphics_family_from] at h
  | cons q rest ih =>
    intro i f h
    by_cases hq : has_graphics q = true
    · simp [find_graphics_family_from, hq] at h
      exact ⟨0, by omega, by simp, by simpa using hq,
        fun g hg => absurd hg (by omega)⟩
    · simp [find_graphics_family_from, hq] at h
      obtain ⟨k, hf, hk, hg, hall⟩ := ih (i + 1) f h
      refine ⟨k + 1, by omega, by simpa using Nat.succ_lt_succ hk, by simpa using hg, ?_⟩
      intro g hgk
      cases g with
      | zero => simpa using hq
      | succ g' =>
        simpa using hall g' (by omega)

/-- The family scan fails exactly when no family is graphics-capable. -/
theorem find_graphics_family_from_none (qs : List QueueFamilyProperties) :
    ∀ i, find_graphics_family_from i qs = none ↔
      ∀ q ∈ qs, has_graphics q = false := by
  induction qs with
  | nil => intro i; simp [find_graphics_family_from]
  | cons q rest ih =>
    intro i
    by_cases hq : has_graphics q = true
    · simp [find_graphics_family_from, hq]
    · have hq' : has_graphics q = false := by simpa using hq
      simp [find_graphics_family_from, hq', ih (i + 1)]

/-- The device scan starting at i returns i + k where k is the position of
the first device having a graphics family, all earlier devices having
none. -/
theorem pick_phyiscal_device_from_ok (devices : List PhysicalDevice) :
    ∀ i di f, pick_phyiscal_device_from i devices = Except.ok (di, f) →
      ∃ k, di = i + k ∧ k < devices.length ∧
        find_graphics_family (devices.getD k ⟨[]⟩).queue_families = some f ∧
        ∀ j, j < k →
          find_graphics_family (devices.getD j ⟨[]⟩).queue_families = none := by
  induction devices with
  | nil => intro i di f h; simp [pick_phyiscal_device_from] at h
  | cons d rest ih =>
    intro i di f h
    rcases hd : find_graphics_family d.queue_families with _ | f0
    · simp [pick_phyiscal_device_from, hd] at h
      obtain ⟨k, hdi, hk, hfind, hall⟩ := ih (i + 1) di f h
      refine ⟨k + 1, by omega, by simpa using Nat.succ_lt_succ hk,
        by simpa using hfind, ?_⟩
      intro j hj
      cases j with
      | zero => simpa using hd
      | succ j' =>
        simpa using hall j' (by omega)
    · simp [pick_phyiscal_device_from, hd] at h
      refine ⟨0, by omega, by simp, ?_, fun j hj => absurd hj (by omega)⟩
      simp [hd, h.2]

/-- When no enumerated device has a graphics family, the device scan
fails with the device-selection error. -/
theorem pick_phyiscal_device_from_none (devices : List PhysicalDevice) :
    ∀ i, (∀ d ∈ devices, find_graphics_family d.queue_families = none) →
      pick_phyiscal_device_from i devices = Except.error DEVICE_SELECTION_ERROR := by
  induction devices with
  | nil => intro i _; rfl
  | cons d rest ih =>
    intro i h
    have hd : find_graphics_family d.queue_families = none := h d (by simp)
    simp [pick_phyiscal_device_from, hd]
    exact ih (i + 1) fun d' hd' => h d' (by simp [hd'])

/-- C4: with validation enabled, when the requested layer name is absent
from the enumerated supported-layer list, create_instance aborts with the
fatal configuration panic before any instance is created (for every
driver outcome); when the layer is present, the check succeeds and
instance creation proceeds (the result is never the panic). -/
theorem C4_layer_gate (supported_layers : List String) (target_macos : Bool)
    (api_version : Nat) (platform_extensions : List String)
    (driver : Except String Nat) :
    (LAYER_NAME ∉ supported_layers →
      create_instance true supported_layers target_macos api_version
          platform_extensions driver
        = Outcome.panicked "Validation layer is requested, but no available") ∧
    (LAYER_NAME ∈ supported_layers →
      check_validation_support supported_layers = true ∧
      ∀ m, create_instance true supported_layers target_macos api_version
          platform_extensions driver ≠ Outcome.panicked m) := by
  constructor
  · intro hmem
    have hc : check_validation_support supported_layers = false := by
      rw [← Bool.not_eq_true, check_validation_support_iff]
      exact hmem
    simp [create_instance, hc]
  · intro hmem
    have hc : check_validation_support supported_layers = true :=
      (check_validation_support_iff _).2 hmem
    refine ⟨hc, fun m => ?_⟩
    cases driver <;> simp [create_instance, hc]

/-- Witness for C4 at concrete inputs: an empty supported-layer list
panics, a list holding the layer does not. -/
theorem C4_layer_gate_witness :
    create_instance true [] false 0 [] (Except.ok 1)
      = Outcome.panicked "Validation layer is requested, but no available" ∧
    (check_validation_support [LAYER_NAME] = true ∧
      ∀ m, create_instance true [LAYER_NAME] false 0 [] (Except.ok 1)
        ≠ Outcome.panicked m) :=
  ⟨(C4_layer_gate [] false 0 [] (Except.ok 1)).1 (by simp),
   (C4_layer_gate [LAYER_NAME] false 0 [] (Except.ok 1)).2 (by simp)⟩

/-- C5: first-fit physical-device selection. A successful family scan
returns the first graphics-capable family index; a successful device
scan returns the first device (in enumeration order) having such a
family, with no earlier device qualifying; and when no device qualifies,
selection fails with the device-selection error and the bootstrap
pipeline returns that error without consulting the logical-device or
surface driver calls (so no logical device is created). -/
theorem C5_first_fit_selection :
    (∀ qs f, find_graphics_family qs = some f →
      f < qs.length ∧ has_graphics (qs.getD f ⟨0⟩) = true ∧
      ∀ g, g < f → has_graphics (qs.getD g ⟨0⟩) = false) ∧
    (∀ devices di f, pick_phyiscal_device devices = Except.ok (di, f) →
      di < devices.length ∧
      find_graphics_family (devices.getD di ⟨[]⟩).queue_families = some f ∧
      ∀ j, j < di →
        find_graphics_family (devices.getD j ⟨[]⟩).queue_families = none) ∧
    (∀ devices,
      (∀ d ∈ devices, find_graphics_family d.queue_families = none) →
      pick_phyiscal_device devices = Except.error DEVICE_SELECTION_ERROR ∧
      ∀ driver_create_device platform_create_surface : Except String Nat,
        VulkanApp.new (Except.ok ()) false [] false 0 [] (Except.ok 1)
            (Except.ok 2) devices driver_create_device platform_create_surface
          = Outcome.err DEVICE_SELECTION_ERROR) := by
  refine ⟨?_, ?_, ?_⟩
  · intro qs f h
    obtain ⟨k, hf, hk, hg, hall⟩ := find_graphics_family_from_some qs 0 f h
    have hk0 : f = k := by omega
    subst hk0
    exact ⟨hk, hg, hall⟩
  · intro devices di f h
    obtain ⟨k, hdi, hk, hfind, hall⟩ := pick_phyiscal_device_from_ok devices 0 di f h
    have hk0 : di = k := by omega
    subst hk0
    exact ⟨hk, hfind, hall⟩
  · intro devices h
    have hp : pick_phyiscal_device devices = Except.error DEVICE_SELECTION_ERROR :=
      pick_phyiscal_device_from_none devices 0 h
    refine ⟨hp, fun dd ps => ?_⟩
    simp [VulkanApp.new, Outcome.bind, ofResult, create_instance,
      setup_debug_utils, check_validation_support, hp]

/-- Witness for C5 at the concrete enumerations of the spec test: device
index 2, family index 1 is the first graphics-capable pair and is chosen;
the all-non-graphics enumeration fails and fails the pipeline. -/
theorem C5_first_fit_selection_witness :
    (2 < sample_devices.length ∧
      find_graphics_family (sample_devices.getD 2 ⟨[]⟩).queue_families = some 1 ∧
      ∀ j, j < 2 →
        find_graphics_family (sample_devices.getD j ⟨[]⟩).queue_families = none) ∧
    (pick_phyiscal_device sample_devices_no_graphics
        = Except.error DEVICE_SELECTION_ERROR ∧
      ∀ driver_create_device platform_create_surface : Except String Nat,
        VulkanApp.new (Except.ok ()) false [] false 0 [] (Except.ok 1)
            (Except.ok 2) sample_devices_no_graphics driver_create_device
            platform_create_surface
          = Outcome.err DEVICE_SELECTION_ERROR) :=
  ⟨C5_first_fit_selection.2.1 sample_devices 2 1 (by rfl),
   C5_first_fit_selection.2.2 sample_devices_no_graphics (by decide)⟩

/-- C8: the messenger creation descriptor enables exactly the severity
bits verbose, warning, error (in particular not info) and exactly the
category bits general, validation, performance, and registers the
callback. -/
theorem C8_messenger_registration :
    (∀ b : Nat, debug_create_info.message_severity.testBit b = true ↔
      (2 ^ b = SEVERITY_VERBOSE ∨ 2 ^ b = SEVERITY_WARNING ∨
        2 ^ b = SEVERITY_ERROR)) ∧
    (∀ b : Nat, debug_create_info.message_type.testBit b = true ↔
      (2 ^ b = TYPE_GENERAL ∨ 2 ^ b = TYPE_VALIDATION ∨
        2 ^ b = TYPE_PERFORMANCE)) ∧
    debug_create_info.message_severity &&& SEVERITY_INFO = 0 ∧
    debug_create_info.pfn_user_callback = true := by
  have hsev : debug_create_info.message_severity = 4353 := by decide
  have hty : debug_create_info.message_type = 7 := by decide
  refine ⟨?_, ?_, by decide, rfl⟩
  · intro b
    rw [hsev]
    by_cases hb : b < 13
    · interval_cases b <;> decide
    · push_neg at hb
      have h2 : (8192 : Nat) ≤ 2 ^ b := by
        calc (8192 : Nat) = 2 ^ 13 := by norm_num
        _ ≤ 2 ^ b := Nat.pow_le_pow_right (by norm_num) hb
      rw [Nat.testBit_eq_false_of_lt (by omega)]
      simp [SEVERITY_VERBOSE, SEVERITY_WARNING, SEVERITY_ERROR]
      omega
  · intro b
    rw [hty]
    by_cases hb : b < 3
    · interval_cases b <;> decide
    · push_neg at hb
      have h2 : (8 : Nat) ≤ 2 ^ b := by
        calc (8 : Nat) = 2 ^ 3 := by norm_num
        _ ≤ 2 ^ b := Nat.pow_le_pow_right (by norm_num) hb
      rw [Nat.testBit_eq_false_of_lt (by omega)]
      simp [TYPE_GENERAL, TYPE_VALIDATION, TYPE_PERFORMANCE]
      omega

/-- C6 counterexample: on macOS with the api version exactly equal to the
portability threshold — hence not below it — create_instance still
extends the platform extension list with the two portability extensions
and sets the portability flag, refuting the claim that otherwise (when
the version is not strictly below the threshold) the extension list is
left as the platform list and the creation flags are empty. -/
theorem C6_portability_counterexample :
    ¬ (PORTABILITY_MACOS_VERSION < PORTABILITY_MACOS_VERSION) ∧
    create_instance false [] true PORTABILITY_MACOS_VERSION ["VK_KHR_surface"]
        (Except.ok 1)
      = Outcome.ok (1,
          { portability_flag := true
          , enabled_extension_names :=
              ["VK_KHR_surface", KHR_GET_PHYSICAL_DEVICE_PROPERTIES2,
                KHR_PORTABILITY_ENUMERATION]
          , enabled_layer_names := []
          , debug_chain := false }) :=
  ⟨lt_irrefl _, by decide⟩

/-- C6 amended: for every successful instance creation, the platform
extension list is extended with exactly the two portability extensions
and the portability-enumeration flag is set exactly when the target is
macOS and the api version is at or below the portability threshold
(the code tests PORTABILITY_MACOS_VERSION >= api_version, which permits
equality); otherwise the extension list is left as the platform list and
the creation flags are empty. -/
theorem C6_portability_extension (validation_enabled : Bool)
    (supported_layers : List String) (target_macos : Bool) (api_version : Nat)
    (platform_extensions : List String) (driver : Except String Nat)
    (h : Nat) (info : InstanceCreateInfo)
    (hok : create_instance validation_enabled supported_layers target_macos
        api_version platform_extensions driver = Outcome.ok (h, info)) :
    (info.portability_flag = true ↔
      (target_macos = true ∧ PORTABILITY_MACOS_VERSION ≥ api_version)) ∧
    (target_macos = true ∧ PORTABILITY_MACOS_VERSION ≥ api_version →
      info.enabled_extension_names
        = platform_extensions ++
            [KHR_GET_PHYSICAL_DEVICE_PROPERTIES2, KHR_PORTABILITY_ENUMERATION]) ∧
    (¬ (target_macos = true ∧ PORTABILITY_MACOS_VERSION ≥ api_version) →
      info.enabled_extension_names = platform_extensions ∧
      info.portability_flag = false) := by
  simp only [create_instance] at hok
  split at hok
  · simp at hok
  · cases driver with
    | error e => simp at hok
    | ok h' =>
      simp only [Outcome.ok.injEq, Prod.mk.injEq] at hok
      obtain ⟨h1, h2⟩ := hok
      subst h2
      by_cases hcond : target_macos = true ∧ PORTABILITY_MACOS_VERSION ≥ api_version
      · refine ⟨by simp [instance_flags_portability, hcond], ?_, ?_⟩
        · intro _
          simp [instance_extensions, hcond]
        · intro hnot
          exact absurd hcond hnot
      · refine ⟨by simp [instance_flags_portability, hcond], ?_, ?_⟩
        · intro hc
          exact absurd hc hcond
        · intro _
          exact ⟨by simp [instance_extensions, hcond],
            by simp [instance_flags_portability, hcond]⟩

/-- Witness for C6 at a concrete successful creation: macOS with api
version zero, which is at or below the threshold, so the flag is set and
the two extensions are appended. -/
theorem C6_portability_extension_witness :
    (sample_portability_info.portability_flag = true ↔
      (true = true ∧ PORTABILITY_MACOS_VERSION ≥ 0)) ∧
    (true = true ∧ PORTABILITY_MACOS_VERSION ≥ 0 →
      sample_portability_info.enabled_extension_names
        = ["VK_KHR_surface"] ++
            [KHR_GET_PHYSICAL_DEVICE_PROPERTIES2, KHR_PORTABILITY_ENUMERATION]) ∧
    (¬ (true = true ∧ PORTABILITY_MACOS_VERSION ≥ 0) →
      sample_portability_info.enabled_extension_names = ["VK_KHR_surface"] ∧
      sample_portability_info.portability_flag = false) :=
  C6_portability_extension false [] true 0 ["VK_KHR_surface"] (Except.ok 5) 5
    sample_portability_info (by decide)

/-- C9 counterexample: messenger creation is a fallible bootstrap step,
yet when the driver rejects it the code does not return a result value —
setup_debug_utils aborts at the call site (the expect in main.rs line
232), and so does the whole bootstrap pipeline, refuting the claim that
every fallible step propagates a result to the top-level handler. -/
theorem C9_expect_counterexample :
    setup_debug_utils true (Except.error "messenger creation rejected")
      = Outcome.panicked "Debug Utils Callback" ∧
    VulkanApp.new (Except.ok ()) true [LAYER_NAME] false 0 []
        (Except.ok 1) (Except.error "messenger creation rejected")
        [⟨[⟨1⟩]⟩] (Except.ok 3) (Except.ok 4)
      = Outcome.panicked "Debug Utils Callback" :=
  ⟨rfl, by decide⟩

/-- C9 amended: each fallible bootstrap step propagates its error result
through the question-mark operator to the single top-level handler,
except two paths that abort the process at the call site: the missing
validation layer panic in create_instance and the expect on messenger
creation in setup_debug_utils — and those are the only call-site aborts
in the pipeline. In detail: bootstrap can only abort with one of those
two messages; an entry-load error, an instance driver error (when the
layer gate passes), a device-selection error, a logical-device driver
error and a surface error are each returned as that error; and when
every step succeeds the bootstrap returns an application value. -/
theorem C9_error_propagation (entry_load : Except String Unit)
    (validation_enabled : Bool) (supported_layers : List String)
    (target_macos : Bool) (api_version : Nat)
    (platform_extensions : List String)
    (driver_create_instance driver_create_messenger : Except String Nat)
    (devices : List PhysicalDevice)
    (driver_create_device platform_create_surface : Except String Nat) :
    (∀ m, VulkanApp.new entry_load validation_enabled supported_layers
          target_macos api_version platform_extensions driver_create_instance
          driver_create_messenger devices driver_create_device
          platform_create_surface
        = Outcome.panicked m →
      m = "Validation layer is requested, but no available" ∨
        m = "Debug Utils Callback") ∧
    (∀ e, entry_load = Except.error e →
      VulkanApp.new entry_load validation_enabled supported_layers
          target_macos api_version platform_extensions driver_create_instance
          driver_create_messenger devices driver_create_device
          platform_create_surface
        = Outcome.err e) ∧
    (entry_load = Except.ok () →
      (validation_enabled && !check_validation_support supported_layers)
        = false →
      (∀ e, driver_create_instance = Except.error e →
        VulkanApp.new entry_load validation_enabled supported_layers
            target_macos api_version platform_extensions
            driver_create_instance driver_create_messenger devices
            driver_create_device platform_create_surface
          = Outcome.err e) ∧
      (∀ ih, driver_create_instance = Except.ok ih →
        (validation_enabled = true →
          ∀ e, driver_create_messenger = Except.error e →
            VulkanApp.new entry_load validation_enabled supported_layers
                target_macos api_version platform_extensions
                driver_create_instance driver_create_messenger devices
                driver_create_device platform_create_surface
              = Outcome.panicked "Debug Utils Callback") ∧
        ((validation_enabled = false ∨
            ∃ mh, driver_create_messenger = Except.ok mh) →
          (∀ e, pick_phyiscal_device devices = Except.error e →
            VulkanApp.new entry_load validation_enabled supported_layers
                target_macos api_version platform_extensions
                driver_create_instance driver_create_messenger devices
                driver_create_device platform_create_surface
              = Outcome.err e) ∧
          (∀ di f, pick_phyiscal_device devices = Except.ok (di, f) →
            (∀ e, driver_create_device = Except.error e →
              VulkanApp.new entry_load validation_enabled supported_layers
                  target_macos api_version platform_extensions
                  driver_create_instance driver_create_messenger devices
                  driver_create_device platform_create_surface
                = Outcome.err e) ∧
            (∀ dh, driver_create_device = Except.ok dh →
              (∀ e, platform_create_surface = Except.error e →
                VulkanApp.new entry_load validation_enabled supported_layers
                    target_macos api_version platform_extensions
                    driver_create_instance driver_create_messenger devices
                    driver_create_device platform_create_surface
                  = Outcome.err e) ∧
              (∀ s, platform_create_surface = Except.ok s →
                ∃ app, VulkanApp.new entry_load validation_enabled
                    supported_layers target_macos api_version
                    platform_extensions driver_create_instance
                    driver_create_messenger devices driver_create_device
                    platform_create_surface
                  = Outcome.ok app)))))) := by
  refine ⟨?_, ?_, ?_⟩
  · intro m hA
    cases entry_load with
    | error e =>
      simp [VulkanApp.new, ofResult, Outcome.bind] at hA
    | ok u =>
      by_cases hgate :
          (validation_enabled && !check_validation_support supported_layers)
            = true
      · simp [VulkanApp.new, ofResult, Outcome.bind, create_instance,
          hgate] at hA
        exact Or.inl hA.symm
      · have hg : (validation_enabled &&
            !check_validation_support supported_layers) = false := by
          simpa using hgate
        cases driver_create_instance with
        | error e =>
          simp [VulkanApp.new, ofResult, Outcome.bind, create_instance,
            hg] at hA
        | ok ih =>
          cases validation_enabled with
          | false =>
            rcases hp : pick_phyiscal_device devices with e | p
            · simp [VulkanApp.new, ofResult, Outcome.bind, create_instance,
                hg, setup_debug_utils, hp] at hA
            · obtain ⟨di, f⟩ := p
              cases driver_create_device with
              | error e =>
                simp [VulkanApp.new, ofResult, Outcome.bind, create_instance,
                  hg, setup_debug_utils, create_logical_device, hp] at hA
              | ok dh =>
                cases platform_create_surface with
                | error e =>
                  simp [VulkanApp.new, ofResult, Outcome.bind,
                    create_instance, hg, setup_debug_utils,
                    create_logical_device, create_surface, hp] at hA
                | ok s =>
                  simp [VulkanApp.new, ofResult, Outcome.bind,
                    create_instance, hg, setup_debug_utils,
                    create_logical_device, create_surface, hp] at hA
          | true =>
            cases driver_create_messenger with
            | error e =>
              simp [VulkanApp.new, ofResult, Outcome.bind, create_instance,
                hg, setup_debug_utils] at hA
              exact Or.inr hA.symm
            | ok mh =>
              rcases hp : pick_phyiscal_device devices with e | p
              · simp [VulkanApp.new, ofResult, Outcome.bind, create_instance,
                  hg, setup_debug_utils, hp] at hA
              · obtain ⟨di, f⟩ := p
                cases driver_create_device with
                | error e =>
                  simp [VulkanApp.new, ofResult, Outcome.bind,
                    create_instance, hg, setup_debug_utils,
                    create_logical_device, hp] at hA
                | ok dh =>
                  cases platform_create_surface with
                  | error e =>
                    simp [VulkanApp.new, ofResult, Outcome.bind,
                      create_instance, hg, setup_debug_utils,
                      create_logical_device, create_surface, hp] at hA
                  | ok s =>
                    simp [VulkanApp.new, ofResult, Outcome.bind,
                      create_instance, hg, setup_debug_utils,
                      create_logical_device, create_surface, hp] at hA
  · intro e he
    subst he
    simp [VulkanApp.new, ofResult, Outcome.bind]
  · intro hentry hgate
    subst hentry
    refine ⟨?_, ?_⟩
    · intro e he
      subst he
      simp [VulkanApp.new, ofResult, Outcome.bind, create_instance, hgate]
    · intro ih hih
      subst hih
      refine ⟨?_, ?_⟩
      · intro hval e he
        subst hval
        subst he
        simp_all [VulkanApp.new, ofResult, Outcome.bind, create_instance,
          setup_debug_utils]
      · intro hmess
        have hsetup : ∃ mh, setup_debug_utils validation_enabled
            driver_create_messenger = Outcome.ok mh := by
          rcases hmess with hv | ⟨mh, hmh⟩
          · subst hv
            exact ⟨NULL_MESSENGER, rfl⟩
          · subst hmh
            cases validation_enabled <;> exact ⟨_, rfl⟩
        obtain ⟨mh, hmh⟩ := hsetup
        refine ⟨?_, ?_⟩
        · intro e hp
          simp [VulkanApp.new, ofResult, Outcome.bind, create_instance,
            hgate, hmh, hp]
        · intro di f hp
          refine ⟨?_, ?_⟩
          · intro e he
            subst he
            simp [VulkanApp.new, ofResult, Outcome.bind, create_instance,
              create_logical_device, hgate, hmh, hp]
          · intro dh hdh
            subst hdh
            refine ⟨?_, ?_⟩
            · intro e he
              subst he
              simp [VulkanApp.new, ofResult, Outcome.bind, create_instance,
                create_logical_device, create_surface, hgate, hmh, hp]
            · intro s hs
              subst hs
              refine ⟨⟨ih, mh, di, f, dh, (dh, f, 0), s⟩, ?_⟩
              simp [VulkanApp.new, ofResult, Outcome.bind, create_instance,
                create_logical_device, create_surface, get_device_queue,
                hgate, hmh, hp]

/-- Witness for C9 at concrete inputs: an entry-load error is returned as
that error; a full run with every driver call succeeding (validation
disabled, one graphics-capable device) returns an application value. -/
theorem C9_error_propagation_witness :
    VulkanApp.new (Except.error "entry load failed") false [] false 0 []
        (Except.ok 1) (Except.ok 2) [⟨[⟨1⟩]⟩] (Except.ok 3) (Except.ok 4)
      = Outcome.err "entry load failed" ∧
    ∃ app, VulkanApp.new (Except.ok ()) false [] false 0 []
        (Except.ok 1) (Except.ok 2) [⟨[⟨1⟩]⟩] (Except.ok 3) (Except.ok 4)
      = Outcome.ok app :=
  ⟨(C9_error_propagation (Except.error "entry load failed") false [] false 0 []
      (Except.ok 1) (Except.ok 2) [⟨[⟨1⟩]⟩] (Except.ok 3)
      (Except.ok 4)).2.1 "entry load failed" rfl,
   ((((((C9_error_propagation (Except.ok ()) false [] false 0 []
      (Except.ok 1) (Except.ok 2) [⟨[⟨1⟩]⟩] (Except.ok 3)
      (Except.ok 4)).2.2 rfl rfl).2 1 rfl).2 (Or.inl rfl)).2 0 0
        (by rfl)).2 3 rfl).2 4 rfl⟩

end Vulcan
